import Mathlib

/-!
Verification development for the saints-encyclopedia repository.

The repository is a statistics site over a relational store. The layer under
study is the SQL query-construction layer in `src/web/lib/ai-tools.ts`
(tool functions `query_games`, `query_player_stats`, `query_leaderboards`,
`query_scoring`, `query_records`) together with the HTTP leaders endpoint in
`src/web/app/api/leaders/route.ts` and the team predicate `isSaintsTeam`
from the game page.

Two embeddings are developed side by side, both translated from the source:

* a *text* embedding of SQL construction (the exact SQL strings and the
  positional argument lists each tool builds), and
* a *semantic* embedding of the queries as Lean functions over an explicit
  database value (lists of rows per table), with SQL `LIKE '%p%'` modelled
  as substring containment (matching the repository companion predicate
  `isSaintsTeam`, which uses JavaScript `String.includes`), `ORDER BY`
  modelled as a sort, and `LIMIT n` as `List.take n`.

JavaScript truthiness of optional tool parameters (`if (season)`,
`if (opponent)`, `if (game_id)`) is modelled explicitly: a numeric filter is
active only when present and nonzero, a string filter only when present and
nonempty.
-/

namespace SaintsEnc

/-! ## Substring containment (SQL `LIKE '%pat%'`, JS `String.includes`) -/

/-- `listHasPfx s p` is true when `p` is an initial segment of `s`. -/
def listHasPfx : List Char → List Char → Bool
  | _, [] => true
  | [], _ :: _ => false
  | a :: s, b :: p => a == b && listHasPfx s p

/-- `listHasSub s p` is true when `p` occurs contiguously inside `s`. -/
def listHasSub : List Char → List Char → Bool
  | [], p => p.isEmpty
  | a :: s, p => listHasPfx (a :: s) p || listHasSub s p

/-- Substring test on strings; the model of SQL `LIKE '%pat%'` and of
JavaScript `String.includes`. -/
def strContainsSub (s pat : String) : Bool :=
  listHasSub s.data pat.data

/-! ## JavaScript truthiness of optional tool inputs -/

/-- Truthiness of an optional numeric parameter: present and nonzero. -/
def numTruthy : Option Int → Bool
  | none => false
  | some n => n != 0

/-- Truthiness of an optional string parameter: present and nonempty. -/
def strTruthy : Option String → Bool
  | none => false
  | some s => s != ""

/-! ## The franchise team heuristic -/

/-- Model of the recurring SQL condition
`(team LIKE '%Saints%' OR team LIKE '%New Orleans%')`. -/
def likeSaints (team : String) : Bool :=
  strContainsSub team "Saints" || strContainsSub team "New Orleans"

/-- The JavaScript predicate from the game page:
`(team) => team.includes("Saints") || team.includes("New Orleans")`. -/
def isSaintsTeam (team : String) : Bool :=
  strContainsSub team "Saints" || strContainsSub team "New Orleans"

/-! ## Data model: one structure per table used by the claims -/

/-- Row of the `games` table (the columns the queries read). -/
structure Game where
  game_id : String
  season : Int
  game_date : String
  game_type : String
  opponent : String
  home_away : String
  saints_score : Int
  opponent_score : Int
  result : String
deriving DecidableEq

/-- Row of the `players` table (the columns the queries read). -/
structure Player where
  player_id : String
  player_name : String
deriving DecidableEq

/-- Row of one of the offensive stat tables `player_passing`,
`player_rushing`, `player_receiving`. The structure carries the union of the
stat columns the three tables expose; each query reads only the columns of
its own table, exactly as the code builds per-type column lists over the
uniform alias `t`. -/
structure OffRow where
  player_id : String
  game_id : String
  team : String
  att : Int
  com : Int
  yds : Int
  td : Int
  int_thrown : Int
  /-- the `rec` column; `rec` is a reserved name in Lean -/
  rec_count : Int
  avg : Int
  rtg : Int
deriving DecidableEq

/-- Row of the `player_defense` table. -/
structure DefenseRow where
  player_id : String
  game_id : String
  team : String
  tkl : Int
  tfl : Int
  ff : Int
  pd : Int
deriving DecidableEq

/-- Row of the `player_sacks` table. -/
structure SacksRow where
  player_id : String
  game_id : String
  team : String
  sacks : Int
deriving DecidableEq

/-- Row of the `player_interceptions` table. -/
structure IntRow where
  player_id : String
  game_id : String
  team : String
  int_count : Int
deriving DecidableEq

/-- Row of the `scoring_plays` table; `id` is the sequence id. -/
structure ScoringPlay where
  id : Int
  game_id : String
  quarter : Int
  team : String
  description : String
  saints_score : Int
  opp_score : Int
deriving DecidableEq

/-- The database: the tables the studied queries touch. -/
structure DB where
  games : List Game
  players : List Player
  player_passing : List OffRow
  player_rushing : List OffRow
  player_receiving : List OffRow
  player_defense : List DefenseRow
  player_sacks : List SacksRow
  player_interceptions : List IntRow
  scoring_plays : List ScoringPlay
deriving DecidableEq

/-- The database with all non-regular games removed. Invariance of a query
under this restriction expresses that preseason and playoff games contribute
nothing to its result. -/
def restrictRegular (db : DB) : DB :=
  { db with games := db.games.filter fun g => g.game_type == "regular" }

/-! ## Text embedding: SQL strings and positional arguments -/

/-- A positional SQL argument, as passed to `query(sql, args)`. -/
inductive Arg where
  | str (s : String)
  | int (n : Int)
deriving DecidableEq

/-- A constructed SQL statement together with its bound positional args. -/
structure SqlQuery where
  sql : String
  args : List Arg
deriving DecidableEq

/-- The enumerated `stat_type` input of `query_leaderboards` and
`query_player_stats` (`z.enum(["passing", "rushing", "receiving", "defense"])`). -/
inductive StatType where
  | passing
  | rushing
  | receiving
  | defense
deriving DecidableEq

/-- The enumerated `scope` input of `query_leaderboards`
(`z.enum(["career", "season", "game"])`). -/
inductive Scope where
  | career
  | season
  | game
deriving DecidableEq

/-- The enumerated `stat_type` input of `query_records`
(`z.enum(["passing", "rushing", "receiving"])`). -/
inductive OffStat where
  | passing
  | rushing
  | receiving
deriving DecidableEq

/-- The enumerated `scope` input of `query_records`
(`z.enum(["game", "season"])`). -/
inductive RecScope where
  | game
  | season
deriving DecidableEq

/-- String value of the `stat_type` enum, used by the code to build the
table identifier `player_${stat_type}` from the closed enum. -/
def statTypeStr : StatType → String
  | .passing => "passing"
  | .rushing => "rushing"
  | .receiving => "receiving"
  | .defense => "defense"

/-- String value of the `query_records` stat enum. -/
def offStatStr : OffStat → String
  | .passing => "passing"
  | .rushing => "rushing"
  | .receiving => "receiving"

/-- The `teamCondition` string constant of the tool layer. -/
def teamConditionSql : String :=
  "(t.team LIKE \x27%Saints%\x27 OR t.team LIKE \x27%New Orleans%\x27)"

/-- SQL construction of `query_games`: conditional WHERE assembly with every
filter value pushed into the positional argument list. -/
def query_games_sql (season : Option Int) (opponent : Option String)
    (result : Option String) (game_type : Option String) (limit : Int) : SqlQuery :=
  let conds : List String :=
    (if numTruthy season then ["season = ?"] else []) ++
    (if strTruthy opponent then ["opponent LIKE ?"] else []) ++
    (if strTruthy result then ["result = ?"] else []) ++
    (if strTruthy game_type then ["game_type = ?"] else [])
  let args : List Arg :=
    (if numTruthy season then [Arg.int (season.getD 0)] else []) ++
    (if strTruthy opponent then [Arg.str ("%" ++ opponent.getD "" ++ "%")] else []) ++
    (if strTruthy result then [Arg.str (result.getD "")] else []) ++
    (if strTruthy game_type then [Arg.str (game_type.getD "")] else [])
  let wherePart : String :=
    if conds.length > 0 then "WHERE " ++ String.intercalate " AND " conds else ""
  { sql := "SELECT game_id, season, game_date, game_type, opponent, home_away,\n                saints_score, opponent_score, result\n         FROM games " ++ wherePart ++ "\n         ORDER BY game_date DESC LIMIT ?"
    args := args ++ [Arg.int limit] }

/-- SQL construction of the game-resolution query of `query_scoring` (the
path taken when no truthy `game_id` is supplied). -/
def query_scoring_resolve_sql (season : Option Int) (opponent : Option String) : SqlQuery :=
  let conds : List String :=
    (if numTruthy season then ["g.season = ?"] else []) ++
    (if strTruthy opponent then ["g.opponent LIKE ?"] else [])
  let args : List Arg :=
    (if numTruthy season then [Arg.int (season.getD 0)] else []) ++
    (if strTruthy opponent then [Arg.str ("%" ++ opponent.getD "" ++ "%")] else [])
  let wherePart : String :=
    if conds.length > 0 then "WHERE " ++ String.intercalate " AND " conds else ""
  { sql := "SELECT g.game_id, g.game_date, g.opponent, g.saints_score, g.opponent_score\n         FROM games g " ++ wherePart ++ " ORDER BY g.game_date DESC LIMIT 1"
    args := args }

/-- The `cols` ternary of the career branch of `query_leaderboards`. -/
def lbCareerCols : StatType → String
  | .passing => "SUM(t.yds) as yds, SUM(t.td) as td, SUM(t.att) as att, SUM(t.com) as com, SUM(t.int_thrown) as int_thrown"
  | .rushing => "SUM(t.yds) as yds, SUM(t.td) as td, SUM(t.att) as att"
  | _ => "SUM(t.yds) as yds, SUM(t.td) as td, SUM(t.rec) as rec"

/-- The `cols` ternary of the season branch of `query_leaderboards`. -/
def lbSeasonCols : StatType → String
  | .passing => "SUM(t.yds) as yds, SUM(t.td) as td, SUM(t.att) as att, SUM(t.com) as com"
  | .rushing => "SUM(t.yds) as yds, SUM(t.td) as td, SUM(t.att) as att"
  | _ => "SUM(t.yds) as yds, SUM(t.td) as td, SUM(t.rec) as rec"

/-- The `cols` ternary of the single-game branch of `query_leaderboards`. -/
def lbGameCols : StatType → String
  | .passing => "t.yds, t.td, t.att, t.com, t.int_thrown, t.rtg"
  | .rushing => "t.yds, t.td, t.att"
  | _ => "t.yds, t.td, t.rec"

/-- SQL text of the defense career branch of `query_leaderboards`. -/
def lbDefenseCareerSqlText ( sort_by : String) : String :=
  "SELECT p.player_name,\n              COALESCE(def.tkl, 0) as tkl, COALESCE(def.tfl, 0) as tfl,\n              COALESCE(def.ff, 0) as ff,\n              COALESCE(sk.sacks, 0) as sacks,\n              COALESCE(it.int_count, 0) as int_count\n            FROM (\n              SELECT player_id FROM player_defense WHERE team LIKE \x27%Saints%\x27 OR team LIKE \x27%New Orleans%\x27\n              UNION\n              SELECT player_id FROM player_sacks WHERE team LIKE \x27%Saints%\x27 OR team LIKE \x27%New Orleans%\x27\n              UNION\n              SELECT player_id FROM player_interceptions WHERE team LIKE \x27%Saints%\x27 OR team LIKE \x27%New Orleans%\x27\n            ) all_def\n            JOIN players p ON all_def.player_id = p.player_id\n            LEFT JOIN (\n              SELECT t.player_id, SUM(t.tkl) as tkl, SUM(t.tfl) as tfl, SUM(t.ff) as ff\n              FROM player_defense t JOIN games g ON t.game_id = g.game_id\n              WHERE " ++ teamConditionSql ++ " AND g.game_type = \x27regular\x27\n              GROUP BY t.player_id\n            ) def ON def.player_id = all_def.player_id\n            LEFT JOIN (\n              SELECT t.player_id, SUM(t.sacks) as sacks\n              FROM player_sacks t JOIN games g ON t.game_id = g.game_id\n              WHERE " ++ teamConditionSql ++ " AND g.game_type = \x27regular\x27\n              GROUP BY t.player_id\n            ) sk ON sk.player_id = all_def.player_id\n            LEFT JOIN (\n              SELECT t.player_id, SUM(t.int_count) as int_count\n              FROM player_interceptions t JOIN games g ON t.game_id = g.game_id\n              WHERE " ++ teamConditionSql ++ " AND g.game_type = \x27regular\x27\n              GROUP BY t.player_id\n            ) it ON it.player_id = all_def.player_id\n            ORDER BY " ++ sort_by ++ " DESC\n            LIMIT ?"

/-- SQL text of the defense season branch of `query_leaderboards`. -/
def lbDefenseSeasonSqlText ( sort_by : String) : String :=
  "SELECT p.player_name, combined.season,\n              COALESCE(SUM(tkl), 0) as tkl, COALESCE(SUM(tfl), 0) as tfl,\n              COALESCE(SUM(ff), 0) as ff,\n              COALESCE(SUM(sacks), 0) as sacks,\n              COALESCE(SUM(int_count), 0) as int_count\n            FROM (\n              SELECT t.player_id, g.season, SUM(t.tkl) as tkl, SUM(t.tfl) as tfl, SUM(t.ff) as ff, 0 as sacks, 0 as int_count\n              FROM player_defense t JOIN games g ON t.game_id = g.game_id\n              WHERE " ++ teamConditionSql ++ " AND g.game_type = \x27regular\x27\n              GROUP BY t.player_id, g.season\n              UNION ALL\n              SELECT t.player_id, g.season, 0,0,0, SUM(t.sacks), 0\n              FROM player_sacks t JOIN games g ON t.game_id = g.game_id\n              WHERE " ++ teamConditionSql ++ " AND g.game_type = \x27regular\x27\n              GROUP BY t.player_id, g.season\n              UNION ALL\n              SELECT t.player_id, g.season, 0,0,0,0, SUM(t.int_count)\n              FROM player_interceptions t JOIN games g ON t.game_id = g.game_id\n              WHERE " ++ teamConditionSql ++ " AND g.game_type = \x27regular\x27\n              GROUP BY t.player_id, g.season\n            ) combined\n            JOIN players p ON combined.player_id = p.player_id\n            GROUP BY combined.player_id, combined.season\n            ORDER BY " ++ sort_by ++ " DESC\n            LIMIT ?"

/-- SQL text of the defense single-game branch of `query_leaderboards`: a
sacks-only query with a fixed `ORDER BY t.sacks DESC`, ignoring `sort_by`. -/
def lbDefenseGameSqlText : String :=
  "SELECT p.player_name, g.game_date, g.opponent, g.season, t.sacks\n           FROM player_sacks t\n           JOIN players p ON t.player_id = p.player_id\n           JOIN games g ON t.game_id = g.game_id\n           WHERE " ++ teamConditionSql ++ " AND g.game_type = \x27regular\x27\n           ORDER BY t.sacks DESC\n           LIMIT ?"

/-- SQL construction of `query_leaderboards`: the caller string `sort_by` is
spliced into the ORDER BY clause of every branch except defense single-game;
the only bound argument is the limit. -/
def query_leaderboards_sql (st : StatType) (sc : Scope) ( sort_by : String)
    (limit : Int) : SqlQuery :=
  if st = StatType.defense then
    match sc with
    | .career => { sql := lbDefenseCareerSqlText sort_by, args := [Arg.int limit] }
    | .season => { sql := lbDefenseSeasonSqlText sort_by, args := [Arg.int limit] }
    | .game => { sql := lbDefenseGameSqlText, args := [Arg.int limit] }
  else
    let table : String := "player_" ++ statTypeStr st
    match sc with
    | .career =>
      { sql := "SELECT p.player_name, " ++ lbCareerCols st ++ ", COUNT(DISTINCT t.game_id) as games\n           FROM " ++ table ++ " t\n           JOIN players p ON t.player_id = p.player_id\n           JOIN games g ON t.game_id = g.game_id\n           WHERE " ++ teamConditionSql ++ " AND g.game_type = \x27regular\x27\n           GROUP BY t.player_id\n           ORDER BY " ++ sort_by ++ " DESC\n           LIMIT ?"
        args := [Arg.int limit] }
    | .season =>
      { sql := "SELECT p.player_name, g.season, " ++ lbSeasonCols st ++ ", COUNT(DISTINCT t.game_id) as games\n           FROM " ++ table ++ " t\n           JOIN players p ON t.player_id = p.player_id\n           JOIN games g ON t.game_id = g.game_id\n           WHERE " ++ teamConditionSql ++ " AND g.game_type = \x27regular\x27\n           GROUP BY t.player_id, g.season\n           ORDER BY " ++ sort_by ++ " DESC\n           LIMIT ?"
        args := [Arg.int limit] }
    | .game =>
      { sql := "SELECT p.player_name, g.game_date, g.opponent, g.season, " ++ lbGameCols st ++ "\n         FROM " ++ table ++ " t\n         JOIN players p ON t.player_id = p.player_id\n         JOIN games g ON t.game_id = g.game_id\n         WHERE " ++ teamConditionSql ++ " AND g.game_type = \x27regular\x27\n         ORDER BY t." ++ sort_by ++ " DESC\n         LIMIT ?"
        args := [Arg.int limit] }

/-- SQL construction of `query_records`: the caller string `stat_column` is
spliced into the SELECT, WHERE and ORDER BY text; the numeric threshold
`min_value` is the only bound argument. -/
def query_records_sql (st : OffStat) ( stat_column : String) ( min_value : Int)
    (sc : RecScope) : SqlQuery :=
  let table : String := "player_" ++ offStatStr st
  match sc with
  | .season =>
    { sql := "SELECT p.player_name, g.season, SUM(t." ++ stat_column ++
        (") as total,\n                  COUNT(DISTINCT t.game_id) as games\n           FROM " ++ table ++ " t\n           JOIN players p ON t.player_id = p.player_id\n           JOIN games g ON t.game_id = g.game_id\n           WHERE " ++ teamConditionSql ++ " AND g.game_type = \x27regular\x27\n           GROUP BY t.player_id, g.season\n           HAVING total >= ?\n           ORDER BY total DESC")
      args := [Arg.int min_value] }
  | .game =>
    { sql := "SELECT p.player_name, g.game_date, g.opponent, g.season, t." ++ stat_column ++
        (" as value\n         FROM " ++ table ++ " t\n         JOIN players p ON t.player_id = p.player_id\n         JOIN games g ON t.game_id = g.game_id\n         WHERE " ++ teamConditionSql ++ " AND g.game_type = \x27regular\x27 AND t." ++ stat_column ++ " >= ?\n         ORDER BY t." ++ stat_column ++ " DESC")
      args := [Arg.int min_value] }

/-- The `playerCondition` string constant of `query_player_stats`. -/
def playerConditionSql : String := "p.player_name LIKE ?"

/-- The `seasonWhere` fragment of `query_player_stats`
(`season ? "AND g.season = ?" : ""`). -/
def qpsSeasonWhere (season : Option Int) : String :=
  if numTruthy season then "AND g.season = ?" else ""

/-- The positional arguments of every `query_player_stats` path:
`[%player_name%]`, plus the season when truthy. -/
def qpsArgs ( player_name : String) (season : Option Int) : List Arg :=
  [Arg.str ("%" ++ player_name ++ "%")] ++
  (if numTruthy season then [Arg.int (season.getD 0)] else [])

/-- The `cols` ternary of the offensive career path of
`query_player_stats`. -/
def qpsCareerCols : StatType → String
  | .passing => "SUM(t.att) as att, SUM(t.com) as com, SUM(t.yds) as yds, SUM(t.td) as td, SUM(t.int_thrown) as int_thrown, COUNT(DISTINCT t.game_id) as games"
  | .rushing => "SUM(t.att) as att, SUM(t.yds) as yds, SUM(t.td) as td, COUNT(DISTINCT t.game_id) as games"
  | _ => "SUM(t.rec) as rec, SUM(t.yds) as yds, SUM(t.td) as td, COUNT(DISTINCT t.game_id) as games"

/-- The `cols` ternary of the offensive game-by-game path of
`query_player_stats`. -/
def qpsGamelogCols : StatType → String
  | .passing => "t.att, t.com, t.yds, t.td, t.int_thrown, t.rtg"
  | .rushing => "t.att, t.yds, t.avg, t.td"
  | _ => "t.rec, t.yds, t.avg, t.td"

/-- SQL text of the defense career path of `query_player_stats`. -/
def qpsDefenseCareerSqlText (season : Option Int) : String :=
  "SELECT p.player_name,\n              COALESCE(def.tkl, 0) as tkl, COALESCE(def.tfl, 0) as tfl,\n              COALESCE(def.ff, 0) as ff, COALESCE(def.pd_count, 0) as pd,\n              COALESCE(sk.sacks, 0) as sacks,\n              COALESCE(it.int_count, 0) as interceptions\n            FROM players p\n            LEFT JOIN (\n              SELECT t.player_id, SUM(t.tkl) as tkl, SUM(t.tfl) as tfl, SUM(t.ff) as ff, SUM(t.pd) as pd_count\n              FROM player_defense t JOIN games g ON t.game_id = g.game_id\n              WHERE " ++ teamConditionSql ++ " AND g.game_type = \x27regular\x27 " ++ qpsSeasonWhere season ++ "\n              GROUP BY t.player_id\n            ) def ON def.player_id = p.player_id\n            LEFT JOIN (\n              SELECT t.player_id, SUM(t.sacks) as sacks\n              FROM player_sacks t JOIN games g ON t.game_id = g.game_id\n              WHERE " ++ teamConditionSql ++ " AND g.game_type = \x27regular\x27 " ++ qpsSeasonWhere season ++ "\n              GROUP BY t.player_id\n            ) sk ON sk.player_id = p.player_id\n            LEFT JOIN (\n              SELECT t.player_id, SUM(t.int_count) as int_count\n              FROM player_interceptions t JOIN games g ON t.game_id = g.game_id\n              WHERE " ++ teamConditionSql ++ " AND g.game_type = \x27regular\x27 " ++ qpsSeasonWhere season ++ "\n              GROUP BY t.player_id\n            ) it ON it.player_id = p.player_id\n            WHERE " ++ playerConditionSql ++ "\n              AND (def.player_id IS NOT NULL OR sk.player_id IS NOT NULL OR it.player_id IS NOT NULL)"

/-- SQL text of the defense game-by-game path of `query_player_stats`. -/
def qpsDefenseGamelogSqlText (season : Option Int) : String :=
  "SELECT p.player_name, g.game_date, g.opponent, g.season,\n            COALESCE(pd.tkl, 0) as tkl, COALESCE(pd.tfl, 0) as tfl, COALESCE(pd.ff, 0) as ff,\n            COALESCE(sk.sacks, 0) as sacks, COALESCE(it.int_count, 0) as interceptions\n          FROM players p\n          JOIN (\n            SELECT game_id, player_id FROM player_defense WHERE " ++ teamConditionSql ++ "\n            UNION SELECT game_id, player_id FROM player_sacks WHERE " ++ teamConditionSql ++ "\n            UNION SELECT game_id, player_id FROM player_interceptions WHERE " ++ teamConditionSql ++ "\n          ) all_gp ON all_gp.player_id = p.player_id\n          JOIN games g ON all_gp.game_id = g.game_id\n          LEFT JOIN player_defense pd ON pd.player_id = p.player_id AND pd.game_id = g.game_id\n          LEFT JOIN player_sacks sk ON sk.player_id = p.player_id AND sk.game_id = g.game_id\n          LEFT JOIN player_interceptions it ON it.player_id = p.player_id AND it.game_id = g.game_id\n          WHERE " ++ playerConditionSql ++ " AND g.game_type != \x27preseason\x27 " ++ qpsSeasonWhere season ++ "\n          ORDER BY g.game_date DESC\n          LIMIT 50"

/-- SQL construction of `query_player_stats`: on every path the player name
is bound (`p.player_name LIKE ?` with `%name%` pushed into the args), the
optional season is bound, and the only interpolated fragments are the
enum-derived table/column identifiers and the fixed condition strings. -/
def query_player_stats_sql (st : StatType) ( player_name : String)
    (season : Option Int) ( career_totals : Bool) : SqlQuery :=
  if st = StatType.defense then
    if career_totals then
      { sql := qpsDefenseCareerSqlText season, args := qpsArgs player_name season }
    else
      { sql := qpsDefenseGamelogSqlText season, args := qpsArgs player_name season }
  else
    let table : String := "player_" ++ statTypeStr st
    if career_totals then
      { sql := "SELECT p.player_name, " ++ qpsCareerCols st ++ "\n           FROM " ++ table ++ " t\n           JOIN players p ON t.player_id = p.player_id\n           JOIN games g ON t.game_id = g.game_id\n           WHERE " ++ playerConditionSql ++ " AND " ++ teamConditionSql ++ " " ++ qpsSeasonWhere season ++ "\n           GROUP BY t.player_id"
        args := qpsArgs player_name season }
    else
      { sql := "SELECT p.player_name, g.game_date, g.opponent, g.season, " ++ qpsGamelogCols st ++ "\n         FROM " ++ table ++ " t\n         JOIN players p ON t.player_id = p.player_id\n         JOIN games g ON t.game_id = g.game_id\n         WHERE " ++ playerConditionSql ++ " AND " ++ teamConditionSql ++ " " ++ qpsSeasonWhere season ++ "\n         ORDER BY g.game_date DESC\n         LIMIT 50"
        args := qpsArgs player_name season }

/-- SQL construction of `search_players`: fixed text, name and limit bound. -/
def search_players_sql (name : String) (limit : Int) : SqlQuery :=
  { sql := "SELECT DISTINCT p.player_id, p.player_name, p.position, p.college, p.seasons_text\n         FROM players p\n         WHERE p.player_name LIKE ?\n         ORDER BY p.player_name\n         LIMIT ?"
    args := [Arg.str ("%" ++ name ++ "%"), Arg.int limit] }

/-- SQL construction of the player lookup of `query_player_bio`: fixed
text, name bound. -/
def query_player_bio_sql ( player_name : String) : SqlQuery :=
  { sql := "SELECT p.player_id, p.player_name, p.position, p.college, p.height, p.weight,\n                p.birth_date, p.seasons_text\n         FROM players p\n         WHERE p.player_name LIKE ?\n         ORDER BY p.player_name\n         LIMIT 5"
    args := [Arg.str ("%" ++ player_name ++ "%")] }

/-- SQL construction of the scoring-plays fetch of `query_scoring`: fixed
text, the game id bound. -/
def query_scoring_plays_sql (game_id : String) : SqlQuery :=
  { sql := "SELECT sp.quarter, sp.team, sp.description, sp.saints_score, sp.opp_score\n           FROM scoring_plays sp WHERE sp.game_id = ? ORDER BY sp.id"
    args := [Arg.str game_id] }

/-! ## Semantic embedding: sort relations -/

/-- `ORDER BY game_date DESC` as a relation on games. -/
def gameDateGe (a b : Game) : Prop := b.game_date ≤ a.game_date

instance : DecidableRel gameDateGe :=
  fun a b => inferInstanceAs (Decidable (b.game_date ≤ a.game_date))

instance : IsTotal Game gameDateGe := ⟨fun a b => le_total b.game_date a.game_date⟩

instance : IsTrans Game gameDateGe := ⟨fun _ _ _ h1 h2 => le_trans h2 h1⟩

/-- `ORDER BY sp.id` (ascending) as a relation on scoring plays. -/
def playIdLe (a b : ScoringPlay) : Prop := a.id ≤ b.id

instance : DecidableRel playIdLe :=
  fun a b => inferInstanceAs (Decidable (a.id ≤ b.id))

instance : IsTotal ScoringPlay playIdLe := ⟨fun a b => le_total a.id b.id⟩

instance : IsTrans ScoringPlay playIdLe := ⟨fun _ _ _ h1 h2 => le_trans h1 h2⟩

/-- `ORDER BY g.game_date DESC` on joined offensive stat rows. -/
def offTripleDateGe (a b : OffRow × Player × Game) : Prop :=
  b.2.2.game_date ≤ a.2.2.game_date

instance : DecidableRel offTripleDateGe :=
  fun a b => inferInstanceAs (Decidable (b.2.2.game_date ≤ a.2.2.game_date))

instance : IsTotal (OffRow × Player × Game) offTripleDateGe :=
  ⟨fun a b => le_total b.2.2.game_date a.2.2.game_date⟩

instance : IsTrans (OffRow × Player × Game) offTripleDateGe :=
  ⟨fun _ _ _ h1 h2 => le_trans h2 h1⟩

/-- `ORDER BY t.sacks DESC` on joined sack rows. -/
def sackTripleGe (a b : SacksRow × Player × Game) : Prop :=
  b.1.sacks ≤ a.1.sacks

instance : DecidableRel sackTripleGe :=
  fun a b => inferInstanceAs (Decidable (b.1.sacks ≤ a.1.sacks))

instance : IsTotal (SacksRow × Player × Game) sackTripleGe :=
  ⟨fun a b => le_total b.1.sacks a.1.sacks⟩

instance : IsTrans (SacksRow × Player × Game) sackTripleGe :=
  ⟨fun _ _ _ h1 h2 => le_trans h2 h1⟩

/-! ## Semantics of `query_games` -/

/-- The conjunction of the conditionally assembled WHERE conditions of
`query_games`, with JavaScript truthiness gating each filter. -/
def gameFilters (season : Option Int) (opponent : Option String)
    (result game_type : Option String) (g : Game) : Bool :=
  (!numTruthy season || g.season == season.getD 0) &&
  (!strTruthy opponent || strContainsSub g.opponent (opponent.getD "")) &&
  (!strTruthy result || g.result == result.getD "") &&
  (!strTruthy game_type || g.game_type == game_type.getD "")

/-- Semantics of `query_games`: filter, order by date descending, limit.
The SELECT list covers every modelled column of `games`. -/
def query_games_run (db : DB) (season : Option Int) (opponent : Option String)
    (result game_type : Option String) (limit : Nat) : List Game :=
  (List.insertionSort gameDateGe
    (db.games.filter (gameFilters season opponent result game_type))).take limit

/-! ## Semantics of `query_scoring` -/

/-- Projection of a scoring play onto the SELECT list
`sp.quarter, sp.team, sp.description, sp.saints_score, sp.opp_score`. -/
structure PlayOut where
  quarter : Int
  team : String
  description : String
  saints_score : Int
  opp_score : Int
deriving DecidableEq

/-- Projection of a game onto the SELECT list of the resolution query
`g.game_id, g.game_date, g.opponent, g.saints_score, g.opponent_score`. -/
structure GameSummary where
  game_id : String
  game_date : String
  opponent : String
  saints_score : Int
  opponent_score : Int
deriving DecidableEq

/-- The three result shapes of `query_scoring`: a bare play list (explicit
`game_id` path), the `{ error: "No matching game found" }` object, and the
`{ game, scoring_plays }` object. -/
inductive ScoringResult where
  | plays (rows : List PlayOut)
  | noGame
  | gamePlays (game : GameSummary) (scoring_plays : List PlayOut)
deriving DecidableEq

def projPlay (sp : ScoringPlay) : PlayOut :=
  ⟨sp.quarter, sp.team, sp.description, sp.saints_score, sp.opp_score⟩

def projGame (g : Game) : GameSummary :=
  ⟨g.game_id, g.game_date, g.opponent, g.saints_score, g.opponent_score⟩

/-- Scoring plays of one game, ordered by sequence id ascending
(`WHERE sp.game_id = ? ORDER BY sp.id`). -/
def playsFor (db : DB) (gid : String) : List ScoringPlay :=
  List.insertionSort playIdLe (db.scoring_plays.filter fun sp => sp.game_id == gid)

/-- The conditionally assembled WHERE of the game-resolution query of
`query_scoring`. -/
def scoringMatch (season : Option Int) (opponent : Option String) (g : Game) : Bool :=
  (!numTruthy season || g.season == season.getD 0) &&
  (!strTruthy opponent || strContainsSub g.opponent (opponent.getD ""))

/-- The games matching the `query_scoring` filters. -/
def matchingGames (db : DB) (season : Option Int) (opponent : Option String) : List Game :=
  db.games.filter (scoringMatch season opponent)

/-- Semantics of `query_scoring`: a truthy `game_id` fetches plays directly;
otherwise the most recent matching game is resolved
(`ORDER BY g.game_date DESC LIMIT 1`), with an explicit no-game result. -/
def query_scoring_run (db : DB) (game_id : Option String) (season : Option Int)
    (opponent : Option String) : ScoringResult :=
  if strTruthy game_id then
    ScoringResult.plays ((playsFor db (game_id.getD "")).map projPlay)
  else
    match (List.insertionSort gameDateGe (matchingGames db season opponent)).take 1 with
    | [] => ScoringResult.noGame
    | g :: _ =>
      ScoringResult.gamePlays (projGame g) ((playsFor db g.game_id).map projPlay)

/-! ## Semantics of `query_player_stats` (offense paths) -/

/-- SQL `GROUP BY` key extraction: first occurrences of keys, in order. -/
def dedup (l : List String) : List String :=
  l.foldl (fun acc k => if acc.contains k then acc else acc.concat k) []

/-- The joined and filtered row set of the offensive `query_player_stats`
paths: `FROM player_X t JOIN players p JOIN games g WHERE p.player_name
LIKE %name% AND (t.team LIKE %Saints% OR t.team LIKE %New Orleans%)
[AND g.season = ?]`. There is no game_type condition on these paths. -/
def offStatsJoined (db : DB) (rows : List OffRow) (name : String)
    (season : Option Int) : List (OffRow × Player × Game) :=
  rows.flatMap fun t =>
    (db.players.filter fun p => p.player_id == t.player_id).flatMap fun p =>
      (db.games.filter fun g => g.game_id == t.game_id).filterMap fun g =>
        if strContainsSub p.player_name name && likeSaints t.team &&
            (!numTruthy season || g.season == season.getD 0) then
          some (t, p, g)
        else none

/-- Career-totals output row for passing
(`SUM(att), SUM(com), SUM(yds), SUM(td), SUM(int_thrown),
COUNT(DISTINCT game_id)`). -/
structure PassCareerOut where
  player_name : String
  att : Int
  com : Int
  yds : Int
  td : Int
  int_thrown : Int
  games : Nat
deriving DecidableEq

/-- Semantics of `query_player_stats` with `stat_type = "passing"` and
`career_totals = true`: group the joined rows by `player_id` and sum. -/
def qps_passing_career (db : DB) (name : String) (season : Option Int) :
    List PassCareerOut :=
  let rows := offStatsJoined db db.player_passing name season
  (dedup (rows.map fun r => r.1.player_id)).map fun pid =>
    let grp := rows.filter fun r => r.1.player_id == pid
    { player_name := ((grp.head?).map fun r => r.2.1.player_name).getD ""
      att := (grp.map fun r => r.1.att).sum
      com := (grp.map fun r => r.1.com).sum
      yds := (grp.map fun r => r.1.yds).sum
      td := (grp.map fun r => r.1.td).sum
      int_thrown := (grp.map fun r => r.1.int_thrown).sum
      games := (dedup (grp.map fun r => r.1.game_id)).length }

/-- Game-log output row for passing. -/
structure PassGameOut where
  player_name : String
  game_date : String
  opponent : String
  season : Int
  att : Int
  com : Int
  yds : Int
  td : Int
  int_thrown : Int
  rtg : Int
deriving DecidableEq

def projPassGame (r : OffRow × Player × Game) : PassGameOut :=
  { player_name := r.2.1.player_name
    game_date := r.2.2.game_date
    opponent := r.2.2.opponent
    season := r.2.2.season
    att := r.1.att
    com := r.1.com
    yds := r.1.yds
    td := r.1.td
    int_thrown := r.1.int_thrown
    rtg := r.1.rtg }

/-- Semantics of `query_player_stats` with `stat_type = "passing"` and
`career_totals = false`: the joined rows ordered by date descending,
`LIMIT 50`. -/
def qps_passing_gamelog (db : DB) (name : String) (season : Option Int) :
    List PassGameOut :=
  ((List.insertionSort offTripleDateGe
    (offStatsJoined db db.player_passing name season)).take 50).map projPassGame

/-! ## Semantics of `query_leaderboards` (career scope, offense) -/

/-- The joined and filtered row set of the offensive career/season/game
branches of `query_leaderboards`: team condition and
`g.game_type = 'regular'`, no player filter. -/
def lbJoined (db : DB) (rows : List OffRow) : List (OffRow × Player × Game) :=
  rows.flatMap fun t =>
    (db.players.filter fun p => p.player_id == t.player_id).flatMap fun p =>
      (db.games.filter fun g => g.game_id == t.game_id).filterMap fun g =>
        if likeSaints t.team && g.game_type == "regular" then some (t, p, g)
        else none

/-- `GROUP BY t.player_id` over the leaderboard row set: the groups keyed by
player id. -/
def lbCareerGroups (db : DB) (rows : List OffRow) :
    List (String × List (OffRow × Player × Game)) :=
  let j := lbJoined db rows
  (dedup (j.map fun r => r.1.player_id)).map fun pid =>
    (pid, j.filter fun r => r.1.player_id == pid)

/-- Career leaderboard output row for passing. -/
structure LBPassOut where
  player_name : String
  yds : Int
  td : Int
  att : Int
  com : Int
  int_thrown : Int
  games : Nat
deriving DecidableEq

def mkLBPassRow (grp : String × List (OffRow × Player × Game)) : LBPassOut :=
  { player_name := ((grp.2.head?).map fun r => r.2.1.player_name).getD ""
    yds := (grp.2.map fun r => r.1.yds).sum
    td := (grp.2.map fun r => r.1.td).sum
    att := (grp.2.map fun r => r.1.att).sum
    com := (grp.2.map fun r => r.1.com).sum
    int_thrown := (grp.2.map fun r => r.1.int_thrown).sum
    games := (dedup (grp.2.map fun r => r.1.game_id)).length }

/-- Interpretation of the interpolated `ORDER BY ${sort_by}` column name
over the passing career output columns. An unknown name is a SQL error at
execution time; it is modelled as a constant key. -/
def passCareerKey ( sort_by : String) (r : LBPassOut) : Int :=
  match sort_by with
  | "yds" => r.yds
  | "td" => r.td
  | "att" => r.att
  | "com" => r.com
  | "int_thrown" => r.int_thrown
  | "games" => Int.ofNat r.games
  | _ => 0

/-- `ORDER BY ${sort_by} DESC` on passing career rows. -/
def lbPassGe ( sort_by : String) (a b : LBPassOut) : Prop :=
  passCareerKey sort_by b ≤ passCareerKey sort_by a

instance ( sort_by : String) : DecidableRel (lbPassGe sort_by) :=
  fun a b => inferInstanceAs (Decidable (passCareerKey sort_by b ≤ passCareerKey sort_by a))

instance ( sort_by : String) : IsTotal LBPassOut (lbPassGe sort_by) :=
  ⟨fun a b => le_total (passCareerKey sort_by b) (passCareerKey sort_by a)⟩

instance ( sort_by : String) : IsTrans LBPassOut (lbPassGe sort_by) :=
  ⟨fun _ _ _ h1 h2 => le_trans h2 h1⟩

/-- Semantics of `query_leaderboards` with `stat_type = "passing"`,
`scope = "career"`. -/
def query_leaderboards_career_passing (db : DB) ( sort_by : String)
    (limit : Nat) : List LBPassOut :=
  (List.insertionSort (lbPassGe sort_by)
    ((lbCareerGroups db db.player_passing).map mkLBPassRow)).take limit

/-! ## Semantics of `query_player_stats` (defense career path) -/

/-- Rows of `player_defense` joined to `games`, restricted by the team
condition, `g.game_type = 'regular'` and the optional season filter — the
row set of the `def` subquery of the defense career path. -/
def defRowsScope (db : DB) (season : Option Int) : List (DefenseRow × Game) :=
  db.player_defense.flatMap fun t =>
    (db.games.filter fun g => g.game_id == t.game_id).filterMap fun g =>
      if likeSaints t.team && g.game_type == "regular" &&
          (!numTruthy season || g.season == season.getD 0) then some (t, g)
      else none

/-- The `sk` subquery row set of the defense career path. -/
def sackRowsScope (db : DB) (season : Option Int) : List (SacksRow × Game) :=
  db.player_sacks.flatMap fun t =>
    (db.games.filter fun g => g.game_id == t.game_id).filterMap fun g =>
      if likeSaints t.team && g.game_type == "regular" &&
          (!numTruthy season || g.season == season.getD 0) then some (t, g)
      else none

/-- The `it` subquery row set of the defense career path. -/
def intRowsScope (db : DB) (season : Option Int) : List (IntRow × Game) :=
  db.player_interceptions.flatMap fun t =>
    (db.games.filter fun g => g.game_id == t.game_id).filterMap fun g =>
      if likeSaints t.team && g.game_type == "regular" &&
          (!numTruthy season || g.season == season.getD 0) then some (t, g)
      else none

/-- Aggregates of the `def` subquery
(`SUM(tkl), SUM(tfl), SUM(ff), SUM(pd)` grouped by player). -/
structure DefSums where
  tkl : Int
  tfl : Int
  ff : Int
  pd : Int
deriving DecidableEq

/-- The `def` subquery grouped by player: `none` models the absence of a
group (a failed LEFT JOIN), `some` the aggregate row. -/
def defAgg (db : DB) (season : Option Int) (pid : String) : Option DefSums :=
  let grp := (defRowsScope db season).filter fun r => r.1.player_id == pid
  if grp.isEmpty then none
  else some
    { tkl := (grp.map fun r => r.1.tkl).sum
      tfl := (grp.map fun r => r.1.tfl).sum
      ff := (grp.map fun r => r.1.ff).sum
      pd := (grp.map fun r => r.1.pd).sum }

/-- The `sk` subquery grouped by player (`SUM(sacks)`). -/
def skAgg (db : DB) (season : Option Int) (pid : String) : Option Int :=
  let grp := (sackRowsScope db season).filter fun r => r.1.player_id == pid
  if grp.isEmpty then none else some (grp.map fun r => r.1.sacks).sum

/-- The `it` subquery grouped by player (`SUM(int_count)`). -/
def itAgg (db : DB) (season : Option Int) (pid : String) : Option Int :=
  let grp := (intRowsScope db season).filter fun r => r.1.player_id == pid
  if grp.isEmpty then none else some (grp.map fun r => r.1.int_count).sum

/-- The outer WHERE of the defense career path: the player name matches and
at least one of the three LEFT JOINs produced a row
(`def.player_id IS NOT NULL OR sk.player_id IS NOT NULL OR
it.player_id IS NOT NULL`). -/
def qpsDefOuterCond (db : DB) (name : String) (season : Option Int)
    (p : Player) : Bool :=
  strContainsSub p.player_name name &&
  ((defAgg db season p.player_id).isSome || (skAgg db season p.player_id).isSome ||
    (itAgg db season p.player_id).isSome)

/-- Defense career output row; every stat is COALESCEd to an integer. -/
structure DefCareerOut where
  player_name : String
  tkl : Int
  tfl : Int
  ff : Int
  pd : Int
  sacks : Int
  interceptions : Int
deriving DecidableEq

/-- The output row built for one player by the defense career path:
`COALESCE(x, 0)` over the three optional aggregates. -/
def defCareerRow (db : DB) (season : Option Int) (p : Player) : DefCareerOut :=
  { player_name := p.player_name
    tkl := ((defAgg db season p.player_id).map DefSums.tkl).getD 0
    tfl := ((defAgg db season p.player_id).map DefSums.tfl).getD 0
    ff := ((defAgg db season p.player_id).map DefSums.ff).getD 0
    pd := ((defAgg db season p.player_id).map DefSums.pd).getD 0
    sacks := (skAgg db season p.player_id).getD 0
    interceptions := (itAgg db season p.player_id).getD 0 }

/-- Semantics of `query_player_stats` with `stat_type = "defense"` and
`career_totals = true`. -/
def qps_defense_career (db : DB) (name : String) (season : Option Int) :
    List DefCareerOut :=
  (db.players.filter (qpsDefOuterCond db name season)).map (defCareerRow db season)

/-! ## Semantics of `query_leaderboards` (defense career and game scopes) -/

/-- The `all_def` union of the defense career leaderboard: distinct player
ids holding a row in any of the three defense tables passing the team
condition. The union subqueries consult no game data. -/
def lbDefMembers (db : DB) : List String :=
  dedup
    (((db.player_defense.filter fun t => likeSaints t.team).map DefenseRow.player_id) ++
     ((db.player_sacks.filter fun t => likeSaints t.team).map SacksRow.player_id) ++
     ((db.player_interceptions.filter fun t => likeSaints t.team).map IntRow.player_id))

/-- Joined row set of the `def` subquery of the defense career leaderboard
(team condition and regular games, no season filter). -/
def lbDefJoinedRows (db : DB) : List (DefenseRow × Game) :=
  db.player_defense.flatMap fun t =>
    (db.games.filter fun g => g.game_id == t.game_id).filterMap fun g =>
      if likeSaints t.team && g.game_type == "regular" then some (t, g)
      else none

/-- Joined row set of the `sk` subquery of the defense career leaderboard. -/
def lbSkJoinedRows (db : DB) : List (SacksRow × Game) :=
  db.player_sacks.flatMap fun t =>
    (db.games.filter fun g => g.game_id == t.game_id).filterMap fun g =>
      if likeSaints t.team && g.game_type == "regular" then some (t, g)
      else none

/-- Joined row set of the `it` subquery of the defense career leaderboard. -/
def lbItJoinedRows (db : DB) : List (IntRow × Game) :=
  db.player_interceptions.flatMap fun t =>
    (db.games.filter fun g => g.game_id == t.game_id).filterMap fun g =>
      if likeSaints t.team && g.game_type == "regular" then some (t, g)
      else none

/-- The `def` subquery of the defense career leaderboard
(`SUM(tkl), SUM(tfl), SUM(ff)` grouped by player). -/
def lbDefAgg (db : DB) (pid : String) : Option (Int × Int × Int) :=
  let grp := (lbDefJoinedRows db).filter fun r => r.1.player_id == pid
  if grp.isEmpty then none
  else some ((grp.map fun r => r.1.tkl).sum, (grp.map fun r => r.1.tfl).sum,
    (grp.map fun r => r.1.ff).sum)

/-- The `sk` subquery of the defense career leaderboard. -/
def lbSkAgg (db : DB) (pid : String) : Option Int :=
  let grp := (lbSkJoinedRows db).filter fun r => r.1.player_id == pid
  if grp.isEmpty then none else some (grp.map fun r => r.1.sacks).sum

/-- The `it` subquery of the defense career leaderboard. -/
def lbItAgg (db : DB) (pid : String) : Option Int :=
  let grp := (lbItJoinedRows db).filter fun r => r.1.player_id == pid
  if grp.isEmpty then none else some (grp.map fun r => r.1.int_count).sum

/-- Defense career leaderboard output row. -/
structure LBDefCareerOut where
  player_name : String
  tkl : Int
  tfl : Int
  ff : Int
  sacks : Int
  int_count : Int
deriving DecidableEq

def mkLBDefRow (db : DB) (p : Player) : LBDefCareerOut :=
  { player_name := p.player_name
    tkl := ((lbDefAgg db p.player_id).map fun s => s.1).getD 0
    tfl := ((lbDefAgg db p.player_id).map fun s => s.2.1).getD 0
    ff := ((lbDefAgg db p.player_id).map fun s => s.2.2).getD 0
    sacks := (lbSkAgg db p.player_id).getD 0
    int_count := (lbItAgg db p.player_id).getD 0 }

/-- Interpretation of `ORDER BY ${sort_by}` over the defense career
leaderboard columns. -/
def defLBKey ( sort_by : String) (r : LBDefCareerOut) : Int :=
  match sort_by with
  | "tkl" => r.tkl
  | "tfl" => r.tfl
  | "ff" => r.ff
  | "sacks" => r.sacks
  | "int_count" => r.int_count
  | _ => 0

/-- `ORDER BY ${sort_by} DESC` on defense career leaderboard rows. -/
def lbDefGe ( sort_by : String) (a b : LBDefCareerOut) : Prop :=
  defLBKey sort_by b ≤ defLBKey sort_by a

instance ( sort_by : String) : DecidableRel (lbDefGe sort_by) :=
  fun a b => inferInstanceAs (Decidable (defLBKey sort_by b ≤ defLBKey sort_by a))

instance ( sort_by : String) : IsTotal LBDefCareerOut (lbDefGe sort_by) :=
  ⟨fun a b => le_total (defLBKey sort_by b) (defLBKey sort_by a)⟩

instance ( sort_by : String) : IsTrans LBDefCareerOut (lbDefGe sort_by) :=
  ⟨fun _ _ _ h1 h2 => le_trans h2 h1⟩

/-- The row set of the defense career leaderboard before ORDER BY/LIMIT:
one output row per (member player id, matching `players` row) pair. -/
def lbDefCareerRows (db : DB) : List LBDefCareerOut :=
  (lbDefMembers db).flatMap fun pid =>
    (db.players.filter fun p => p.player_id == pid).map (mkLBDefRow db)

/-- Semantics of `query_leaderboards` with `stat_type = "defense"`,
`scope = "career"`. -/
def query_leaderboards_career_defense (db : DB) ( sort_by : String)
    (limit : Nat) : List LBDefCareerOut :=
  (List.insertionSort (lbDefGe sort_by) (lbDefCareerRows db)).take limit

/-- Single-game defense leaderboard output row (sacks only). -/
structure SackGameOut where
  player_name : String
  game_date : String
  opponent : String
  season : Int
  sacks : Int
deriving DecidableEq

/-- The joined row set of the defense single-game branch: `player_sacks`
only, team condition and regular games. -/
def sacksJoined (db : DB) : List (SacksRow × Player × Game) :=
  db.player_sacks.flatMap fun t =>
    (db.players.filter fun p => p.player_id == t.player_id).flatMap fun p =>
      (db.games.filter fun g => g.game_id == t.game_id).filterMap fun g =>
        if likeSaints t.team && g.game_type == "regular" then some (t, p, g)
        else none

def mkSackOut (r : SacksRow × Player × Game) : SackGameOut :=
  { player_name := r.2.1.player_name
    game_date := r.2.2.game_date
    opponent := r.2.2.opponent
    season := r.2.2.season
    sacks := r.1.sacks }

/-- Semantics of `query_leaderboards` with `stat_type = "defense"`,
`scope = "game"`: the code comments this branch with "single game - not
practical for defense across 3 tables, fall through to sacks"; the supplied
`sort_by` is not read. -/
def lb_defense_game (db : DB) (_sort_by : String) (limit : Nat) : List SackGameOut :=
  ((List.insertionSort sackTripleGe (sacksJoined db)).take limit).map mkSackOut

/-! ## The HTTP leaders endpoint -/

/-- Fixture for the scoring-play ordering claim: two plays of one game,
stored out of sequence order. -/
def exDB7 : DB :=
  { games := []
    players := []
    player_passing := []
    player_rushing := []
    player_receiving := []
    player_defense := []
    player_sacks := []
    player_interceptions := []
    scoring_plays :=
      [⟨2, "g1", 3, "New Orleans Saints", "FG", 10, 7⟩,
       ⟨1, "g1", 1, "New Orleans Saints", "TD", 7, 0⟩] }

/-- Fixture game for the game-resolution claim. -/
def exG8 : Game :=
  ⟨"g8", 2009, "2009-11-02", "regular", "Atlanta Falcons", "home", 35, 27, "W"⟩

/-- Fixture for the game-resolution claim: one game, no scoring plays. -/
def exDB8 : DB :=
  { games := [exG8]
    players := []
    player_passing := []
    player_rushing := []
    player_receiving := []
    player_defense := []
    player_sacks := []
    player_interceptions := []
    scoring_plays := [] }

def exG5 : Game :=
  ⟨"g5", 2010, "2010-09-09", "regular", "Minnesota Vikings", "home", 14, 9, "W"⟩

def exP5 : Player := ⟨"smith-w", "Will Smith"⟩

def exS5 : SacksRow := ⟨"smith-w", "g5", "New Orleans Saints", 2⟩

/-- Fixture for the single-game defense leaderboard claim: one sack row. -/
def exDB5 : DB :=
  { games := [exG5]
    players := [exP5]
    player_passing := []
    player_rushing := []
    player_receiving := []
    player_defense := []
    player_sacks := [exS5]
    player_interceptions := []
    scoring_plays := [] }

def exG9 : Game :=
  ⟨"g9", 2001, "2001-10-14", "regular", "Carolina Panthers", "away", 27, 25, "W"⟩

def exP9 : Player := ⟨"p9", "Sam Passer"⟩

/-- Passing row whose team name collides with the substring heuristic
despite not being the franchise. -/
def exT9a : OffRow :=
  ⟨"p9", "g9", "Saints of Somewhere Else", 10, 5, 100, 1, 0, 0, 0, 90⟩

/-- Passing row for a team that matches neither substring. -/
def exT9b : OffRow :=
  ⟨"p9", "g9", "Atlanta Falcons", 12, 6, 110, 0, 1, 0, 0, 60⟩

/-- Fixture for the team heuristic claim. -/
def exDB9 : DB :=
  { games := [exG9]
    players := [exP9]
    player_passing := [exT9a, exT9b]
    player_rushing := []
    player_receiving := []
    player_defense := []
    player_sacks := []
    player_interceptions := []
    scoring_plays := [] }

def exG3 : Game :=
  ⟨"g3", 1991, "1991-10-06", "regular", "Philadelphia Eagles", "home", 13, 6, "W"⟩

def exP3 : Player := ⟨"p3", "Rickey Jackson"⟩

def exS3 : SacksRow := ⟨"p3", "g3", "New Orleans Saints", 3⟩

/-- Fixture for the single-defense-table claim: one player with one
`player_sacks` row and nothing in `player_defense` or
`player_interceptions`. -/
def exDB3 : DB :=
  { games := [exG3]
    players := [exP3]
    player_passing := []
    player_rushing := []
    player_receiving := []
    player_defense := []
    player_sacks := [exS3]
    player_interceptions := []
    scoring_plays := [] }

def exG2 : Game :=
  ⟨"g2", 2009, "2009-08-14", "preseason", "Houston Texans", "home", 38, 14, "W"⟩

def exP2 : Player := ⟨"p2", "Drew Brees"⟩

/-- A 400-yard passing line attributed to a preseason game. -/
def exT2 : OffRow :=
  ⟨"p2", "g2", "New Orleans Saints", 30, 20, 400, 3, 0, 0, 0, 120⟩

/-- Fixture for the career-scope claim: the only game is a preseason one. -/
def exDB2 : DB :=
  { games := [exG2]
    players := [exP2]
    player_passing := [exT2]
    player_rushing := []
    player_receiving := []
    player_defense := []
    player_sacks := []
    player_interceptions := []
    scoring_plays := [] }

/-! ## Theorems -/

/-- Congruence for `flatMap` under pointwise equality on members. -/
theorem flatMapCongr {α β : Type} {l : List α} {f g : α → List β}
    (h : ∀ a ∈ l, f a = g a) : l.flatMap f = l.flatMap g := by
  induction l with
  | nil => rfl
  | cons a t ih =>
    simp only [List.flatMap_cons, h a (List.mem_cons_self a t)]
    rw [ih fun x hx => h x (List.mem_cons_of_mem a hx)]

/-- Two successive filters commute. -/
theorem filterComm {α : Type} (p q : α → Bool) (l : List α) :
    (l.filter p).filter q = (l.filter q).filter p := by
  induction l with
  | nil => rfl
  | cons a t ih =>
    by_cases hp : p a <;> by_cases hq : q a <;>
      simp [List.filter_cons, hp, hq, ih]

/-- A filter in front of a `filterMap` is redundant when the mapped function
already drops every row the filter drops. -/
theorem filterMapRestrict {α β : Type} {p : α → Bool} {f : α → Option β}
    (h : ∀ a, p a = false → f a = none) :
    ∀ l : List α, (l.filter p).filterMap f = l.filterMap f := by
  intro l
  induction l with
  | nil => rfl
  | cons a t ih =>
    by_cases hp : p a
    · simp [List.filter_cons, hp, List.filterMap_cons, ih]
    · have hnone := h a (by simpa using hp)
      simp [List.filter_cons, hp, List.filterMap_cons, hnone, ih]

/-- C6: for `query_games` with no filters, the result is ordered by
`game_date` descending and its length is exactly the lesser of the `limit`
parameter and the table size. -/
theorem c6_query_games_order_limit (db : DB) (limit : Nat) :
    (query_games_run db none none none none limit).length = min limit db.games.length
    ∧ List.Pairwise gameDateGe (query_games_run db none none none none limit) := by
  have hfilter : db.games.filter (gameFilters none none none none) = db.games :=
    List.filter_eq_self.mpr fun a _ => rfl
  constructor
  · unfold query_games_run
    rw [hfilter, List.length_take,
      (List.perm_insertionSort gameDateGe db.games).length_eq]
  · unfold query_games_run
    exact List.Pairwise.sublist (List.take_sublist _ _)
      (List.sorted_insertionSort gameDateGe _)

/-- C10: a zero season or empty opponent is falsy in the conditional WHERE
assembly of `query_games` and of the game-resolution path of
`query_scoring`; the constructed SQL and the results coincide with the
filter omitted. -/
theorem c10_falsy_filters_ignored :
    (∀ (o r t : Option String) (l : Int),
      query_games_sql (some 0) o r t l = query_games_sql none o r t l)
    ∧ (∀ (s : Option Int) (r t : Option String) (l : Int),
      query_games_sql s (some "") r t l = query_games_sql s none r t l)
    ∧ (∀ (db : DB) (o r t : Option String) (lim : Nat),
      query_games_run db (some 0) o r t lim = query_games_run db none o r t lim)
    ∧ (∀ (db : DB) (s : Option Int) (r t : Option String) (lim : Nat),
      query_games_run db s (some "") r t lim = query_games_run db s none r t lim)
    ∧ (∀ o : Option String,
      query_scoring_resolve_sql (some 0) o = query_scoring_resolve_sql none o)
    ∧ (∀ s : Option Int,
      query_scoring_resolve_sql s (some "") = query_scoring_resolve_sql s none)
    ∧ (∀ (db : DB) (o : Option String),
      query_scoring_run db none (some 0) o = query_scoring_run db none none o)
    ∧ (∀ (db : DB) (s : Option Int),
      query_scoring_run db none s (some "") = query_scoring_run db none s none) := by
  refine ⟨fun o r t l => rfl, fun s r t l => rfl, ?_, ?_, fun o => rfl, fun s => rfl, ?_, ?_⟩
  · intro db o r t lim
    have hf : gameFilters (some 0) o r t = gameFilters none o r t :=
      funext fun g => rfl
    unfold query_games_run
    rw [hf]
  · intro db s r t lim
    have hf : gameFilters s (some "") r t = gameFilters s none r t :=
      funext fun g => rfl
    unfold query_games_run
    rw [hf]
  · intro db o
    have hf : scoringMatch (some 0) o = scoringMatch none o :=
      funext fun g => rfl
    unfold query_scoring_run matchingGames
    rw [hf]
  · intro db s
    have hf : scoringMatch s (some "") = scoringMatch s none :=
      funext fun g => rfl
    unfold query_scoring_run matchingGames
    rw [hf]

/-- C7: for `query_scoring` with an explicit (truthy) `game_id`, the result
is the plays of that game, a permutation of exactly the `scoring_plays`
rows carrying that `game_id`, ordered by sequence id ascending. -/
theorem c7_scoring_by_game_id_order (db : DB) (gid : String)
    (season : Option Int) (opponent : Option String) (hgid : gid ≠ "") :
    query_scoring_run db (some gid) season opponent
      = ScoringResult.plays ((playsFor db gid).map projPlay)
    ∧ (playsFor db gid).Perm (db.scoring_plays.filter fun sp => sp.game_id == gid)
    ∧ List.Pairwise playIdLe (playsFor db gid) := by
  have ht : strTruthy (some gid) = true := by simp [strTruthy, hgid]
  refine ⟨?_, List.perm_insertionSort playIdLe _, List.sorted_insertionSort playIdLe _⟩
  unfold query_scoring_run
  rw [ht]
  simp

/-- Witness for C7 at a concrete database whose plays are stored out of
sequence order. -/
theorem c7_scoring_by_game_id_order_witness :
    query_scoring_run exDB7 (some "g1") none none
      = ScoringResult.plays ((playsFor exDB7 "g1").map projPlay)
    ∧ (playsFor exDB7 "g1").Perm
        (exDB7.scoring_plays.filter fun sp => sp.game_id == "g1")
    ∧ List.Pairwise playIdLe (playsFor exDB7 "g1") :=
  c7_scoring_by_game_id_order exDB7 "g1" none none (by decide)

/-- C8: for `query_scoring` without a `game_id`, the result is the no-game
error object exactly when no game matches the filters; otherwise the
resolved game is a most-recent (maximal-date) matching game and the result
carries its play list. The no-game object differs from every resolved-game
result, including one with an empty play list. -/
theorem c8_scoring_resolution (db : DB) (season : Option Int)
    (opponent : Option String) :
    (query_scoring_run db none season opponent = ScoringResult.noGame
      ↔ matchingGames db season opponent = [])
    ∧ (∀ (g : Game) (rest : List Game),
      matchingGames db season opponent = g :: rest →
      ∃ g0, g0 ∈ matchingGames db season opponent
        ∧ (∀ g1 ∈ matchingGames db season opponent, g1.game_date ≤ g0.game_date)
        ∧ query_scoring_run db none season opponent
            = ScoringResult.gamePlays (projGame g0)
                ((playsFor db g0.game_id).map projPlay))
    ∧ (∀ (gs : GameSummary) (rows : List PlayOut),
      ScoringResult.noGame ≠ ScoringResult.gamePlays gs rows) := by
  have hperm := List.perm_insertionSort gameDateGe (matchingGames db season opponent)
  have hsorted := List.sorted_insertionSort gameDateGe (matchingGames db season opponent)
  have hrun : query_scoring_run db none season opponent =
      (match (List.insertionSort gameDateGe (matchingGames db season opponent)).take 1 with
      | [] => ScoringResult.noGame
      | g :: _ =>
        ScoringResult.gamePlays (projGame g) ((playsFor db g.game_id).map projPlay)) := rfl
  refine ⟨?_, ?_, fun gs rows => by simp⟩
  · cases hS : List.insertionSort gameDateGe (matchingGames db season opponent) with
    | nil =>
      rw [hS] at hperm
      have hM := hperm.symm.eq_nil
      rw [hrun, hS]
      simp [hM]
    | cons h t =>
      rw [hS] at hperm
      constructor
      · intro habs
        rw [hrun, hS] at habs
        simp at habs
      · intro hM
        rw [hM] at hperm
        exact absurd hperm.length_eq (by simp)
  · intro g rest hM
    cases hS : List.insertionSort gameDateGe (matchingGames db season opponent) with
    | nil =>
      rw [hS, hM] at hperm
      exact absurd hperm.length_eq (by simp)
    | cons h t =>
      refine ⟨h, ?_, ?_, ?_⟩
      · refine hperm.subset ?_
        rw [hS]
        exact List.mem_cons_self h t
      · intro g1 hg1
        have hg1' : g1 ∈ h :: t := by
          rw [← hS]
          exact hperm.mem_iff.mpr hg1
        rcases List.mem_cons.mp hg1' with hEq | hMem
        · rw [hEq]
        · rw [hS] at hsorted
          exact (List.pairwise_cons.mp hsorted).1 g1 hMem
      · rw [hrun, hS]
        rfl

/-- Witness for C8 at a concrete database with one matching game and no
scoring plays: the resolved-game result is produced, not the error. -/
theorem c8_scoring_resolution_witness :
    ∃ g0, g0 ∈ matchingGames exDB8 none none
      ∧ (∀ g1 ∈ matchingGames exDB8 none none, g1.game_date ≤ g0.game_date)
      ∧ query_scoring_run exDB8 none none none
          = ScoringResult.gamePlays (projGame g0)
              ((playsFor exDB8 g0.game_id).map projPlay) :=
  (c8_scoring_resolution exDB8 none none).2.1 exG8 [] (by rfl)

/-- C5: `query_leaderboards` with `stat_type = "defense"` and
`scope = "game"` ignores the caller `sort_by` entirely, returns rows drawn
from `player_sacks` only, and orders them by sacks descending. -/
theorem c5_defense_game_sacks_fallback (db : DB) (sb1 sb2 : String)
    (limit : Nat) :
    lb_defense_game db sb1 limit = lb_defense_game db sb2 limit
    ∧ List.Pairwise (fun a b : SackGameOut => b.sacks ≤ a.sacks)
        (lb_defense_game db sb1 limit)
    ∧ ∀ r ∈ lb_defense_game db sb1 limit,
        ∃ t p g, t ∈ db.player_sacks ∧ p ∈ db.players ∧ g ∈ db.games
          ∧ likeSaints t.team = true ∧ g.game_type = "regular"
          ∧ p.player_id = t.player_id ∧ g.game_id = t.game_id
          ∧ r = mkSackOut (t, p, g) := by
  refine ⟨rfl, ?_, ?_⟩
  · unfold lb_defense_game
    refine List.Pairwise.map mkSackOut (fun a b hab => hab) ?_
    exact List.Pairwise.sublist (List.take_sublist _ _)
      (List.sorted_insertionSort sackTripleGe _)
  · intro r hr
    rw [lb_defense_game, List.mem_map] at hr
    obtain ⟨x, hx, hxr⟩ := hr
    have hxS : x ∈ sacksJoined db :=
      (List.perm_insertionSort sackTripleGe (sacksJoined db)).subset
        ((List.take_sublist _ _).subset hx)
    rw [sacksJoined, List.mem_flatMap] at hxS
    obtain ⟨t, ht, hx2⟩ := hxS
    rw [List.mem_flatMap] at hx2
    obtain ⟨p, hp, hx3⟩ := hx2
    rw [List.mem_filter] at hp
    rw [List.mem_filterMap] at hx3
    obtain ⟨g, hg, hfg⟩ := hx3
    rw [List.mem_filter] at hg
    by_cases hcond : (likeSaints t.team && g.game_type == "regular") = true
    · rw [if_pos hcond] at hfg
      obtain rfl := Option.some.inj hfg
      obtain ⟨hlike, hreg⟩ : likeSaints t.team = true ∧ (g.game_type == "regular") = true := by
        simpa using hcond
      exact ⟨t, p, g, ht, hp.1, hg.1, hlike, eq_of_beq hreg, eq_of_beq hp.2,
        eq_of_beq hg.2, hxr.symm⟩
    · rw [if_neg hcond] at hfg
      exact absurd hfg (by simp)

/-- Witness for C5 at a concrete database with one sack row. -/
theorem c5_defense_game_sacks_fallback_witness :
    ∃ t p g, t ∈ exDB5.player_sacks ∧ p ∈ exDB5.players ∧ g ∈ exDB5.games
      ∧ likeSaints t.team = true ∧ g.game_type = "regular"
      ∧ p.player_id = t.player_id ∧ g.game_id = t.game_id
      ∧ mkSackOut (exS5, exP5, exG5) = mkSackOut (t, p, g) :=
  (c5_defense_game_sacks_fallback exDB5 "tkl" "yds" 10).2.2
    (mkSackOut (exS5, exP5, exG5)) (by decide)

/-- C9: franchise attribution is the substring heuristic. The SQL condition
and the JavaScript `isSaintsTeam` agree; `"New Orleans Saints"` matches and
the false positive `"Saints of Somewhere Else"` matches too; every row the
passing game-log query returns stems from a stat row passing the heuristic;
and on a concrete database the false-positive row is returned while a
non-matching team row is dropped. -/
theorem c9_franchise_heuristic :
    likeSaints "New Orleans Saints" = true
    ∧ likeSaints "Saints of Somewhere Else" = true
    ∧ (∀ team : String, isSaintsTeam team = likeSaints team)
    ∧ (∀ (db : DB) (name : String) (season : Option Int) (r : PassGameOut),
      r ∈ qps_passing_gamelog db name season →
      ∃ t p g, t ∈ db.player_passing ∧ p ∈ db.players ∧ g ∈ db.games
        ∧ likeSaints t.team = true ∧ p.player_id = t.player_id
        ∧ g.game_id = t.game_id ∧ r = projPassGame (t, p, g))
    ∧ qps_passing_gamelog exDB9 "" none = [projPassGame (exT9a, exP9, exG9)] := by
  refine ⟨by decide, by decide, fun team => rfl, ?_, by decide⟩
  intro db name season r hr
  rw [qps_passing_gamelog, List.mem_map] at hr
  obtain ⟨x, hx, hxr⟩ := hr
  have hxS : x ∈ offStatsJoined db db.player_passing name season :=
    (List.perm_insertionSort offTripleDateGe _).subset
      ((List.take_sublist _ _).subset hx)
  rw [offStatsJoined, List.mem_flatMap] at hxS
  obtain ⟨t, ht, hx2⟩ := hxS
  rw [List.mem_flatMap] at hx2
  obtain ⟨p, hp, hx3⟩ := hx2
  rw [List.mem_filter] at hp
  rw [List.mem_filterMap] at hx3
  obtain ⟨g, hg, hfg⟩ := hx3
  rw [List.mem_filter] at hg
  by_cases hcond : (strContainsSub p.player_name name && likeSaints t.team &&
      (!numTruthy season || g.season == season.getD 0)) = true
  · rw [if_pos hcond] at hfg
    obtain rfl := Option.some.inj hfg
    obtain ⟨⟨_, hlike⟩, _⟩ : (strContainsSub p.player_name name = true
        ∧ likeSaints t.team = true)
        ∧ (!numTruthy season || g.season == season.getD 0) = true := by
      simpa using hcond
    exact ⟨t, p, g, ht, hp.1, hg.1, hlike, eq_of_beq hp.2, eq_of_beq hg.2,
      hxr.symm⟩
  · rw [if_neg hcond] at hfg
    exact absurd hfg (by simp)

/-- Witness for C9: unpacking the provenance of the false-positive row on
the concrete database. -/
theorem c9_franchise_heuristic_witness :
    ∃ t p g, t ∈ exDB9.player_passing ∧ p ∈ exDB9.players ∧ g ∈ exDB9.games
      ∧ likeSaints t.team = true ∧ p.player_id = t.player_id
      ∧ g.game_id = t.game_id
      ∧ projPassGame (exT9a, exP9, exG9) = projPassGame (t, p, g) :=
  c9_franchise_heuristic.2.2.2.1 exDB9 "" none
    (projPassGame (exT9a, exP9, exG9)) (by decide)

/-- C3: a player whose rows in the relevant scope live in exactly one of
the three defensive tables — whichever of the three it is — is not omitted
by the defense queries. In `query_player_stats` (defense career path) the
player passes the outer WHERE exactly once, so exactly one output row is
generated for that player, it appears in the result, and every stat of the
two absent categories in it is the integer 0 (COALESCE), not null. In the
defense career leaderboard, a player id holding a team-matching row in any
of the three tables produces its row in the pre-LIMIT row set, with absent
categories likewise coalesced to 0. -/
theorem c3_defense_single_table (db : DB) (name : String) (season : Option Int)
    (p : Player)
    (hmem : p ∈ db.players)
    (hcount : db.players.count p = 1)
    (hname : strContainsSub p.player_name name = true)
    (hone :
      ((defAgg db season p.player_id).isSome = true
        ∧ skAgg db season p.player_id = none
        ∧ itAgg db season p.player_id = none)
      ∨ (defAgg db season p.player_id = none
        ∧ (skAgg db season p.player_id).isSome = true
        ∧ itAgg db season p.player_id = none)
      ∨ (defAgg db season p.player_id = none
        ∧ skAgg db season p.player_id = none
        ∧ (itAgg db season p.player_id).isSome = true)) :
    (db.players.filter (qpsDefOuterCond db name season)).count p = 1
    ∧ defCareerRow db season p ∈ qps_defense_career db name season
    ∧ (defAgg db season p.player_id = none →
        (defCareerRow db season p).tkl = 0 ∧ (defCareerRow db season p).tfl = 0
        ∧ (defCareerRow db season p).ff = 0 ∧ (defCareerRow db season p).pd = 0)
    ∧ (skAgg db season p.player_id = none → (defCareerRow db season p).sacks = 0)
    ∧ (itAgg db season p.player_id = none →
        (defCareerRow db season p).interceptions = 0)
    ∧ (p.player_id ∈ lbDefMembers db → mkLBDefRow db p ∈ lbDefCareerRows db)
    ∧ (lbDefAgg db p.player_id = none →
        (mkLBDefRow db p).tkl = 0 ∧ (mkLBDefRow db p).tfl = 0
        ∧ (mkLBDefRow db p).ff = 0)
    ∧ (lbSkAgg db p.player_id = none → (mkLBDefRow db p).sacks = 0)
    ∧ (lbItAgg db p.player_id = none → (mkLBDefRow db p).int_count = 0) := by
  have hcond : qpsDefOuterCond db name season p = true := by
    unfold qpsDefOuterCond
    rw [hname]
    rcases hone with ⟨h, _, _⟩ | ⟨_, h, _⟩ | ⟨_, _, h⟩ <;> simp [h]
  refine ⟨?_, ?_, ?_, ?_, ?_, ?_, ?_, ?_, ?_⟩
  · rw [List.count_filter hcond]
    exact hcount
  · unfold qps_defense_career
    exact List.mem_map_of_mem _ (List.mem_filter.mpr ⟨hmem, hcond⟩)
  · intro h
    refine ⟨?_, ?_, ?_, ?_⟩ <;> simp [defCareerRow, h]
  · intro h
    simp [defCareerRow, h]
  · intro h
    simp [defCareerRow, h]
  · intro hpid
    unfold lbDefCareerRows
    exact List.mem_flatMap.mpr ⟨p.player_id, hpid,
      List.mem_map_of_mem _ (List.mem_filter.mpr ⟨hmem, by simp⟩)⟩
  · intro h
    refine ⟨?_, ?_, ?_⟩ <;> simp [mkLBDefRow, h]
  · intro h
    simp [mkLBDefRow, h]
  · intro h
    simp [mkLBDefRow, h]

/-- Witness for C3 at a sacks-only fixture: the player has a row only in
`player_sacks`, is counted once by the outer filter, appears in both
defense query results, and the absent tackle and interception categories
come back as 0. -/
theorem c3_defense_single_table_witness :
    (exDB3.players.filter (qpsDefOuterCond exDB3 "Jackson" none)).count exP3 = 1
    ∧ defCareerRow exDB3 none exP3 ∈ qps_defense_career exDB3 "Jackson" none
    ∧ (defCareerRow exDB3 none exP3).tkl = 0
    ∧ (defCareerRow exDB3 none exP3).interceptions = 0
    ∧ mkLBDefRow exDB3 exP3 ∈ lbDefCareerRows exDB3
    ∧ (mkLBDefRow exDB3 exP3).int_count = 0 := by
  have H := c3_defense_single_table exDB3 "Jackson" none exP3 (by decide)
    (by decide) (by decide)
    (Or.inr (Or.inl ⟨by decide, by decide, by decide⟩))
  exact ⟨H.1, H.2.1, (H.2.2.1 (by decide)).1, H.2.2.2.2.1 (by decide),
    H.2.2.2.2.2.1 (by decide), H.2.2.2.2.2.2.2.2 (by decide)⟩

/-- C2 counterexample: on a database whose only game is a preseason one, a
400-yard preseason passing line fully shows up in the career totals of
`query_player_stats` with `career_totals = true` — the offensive career
path carries no `game_type` condition, contradicting the claim that only
regular-season rows are summed. -/
theorem c2_career_preseason_cex :
    exDB2.games.all (fun g => g.game_type == "preseason") = true
    ∧ qps_passing_career exDB2 "Brees" none
        = [{ player_name := "Drew Brees", att := 30, com := 20, yds := 400,
             td := 3, int_thrown := 0, games := 1 }] :=
  ⟨by decide, by decide⟩

/-- A filter over games commuted past the restriction to regular games is
redundant for a mapping that drops non-regular games itself. -/
theorem gamesRestrictFilterMap {β : Type} (db : DB) (gid : String)
    (f : Game → Option β)
    (hf : ∀ g, (g.game_type == "regular") = false → f g = none) :
    ((restrictRegular db).games.filter fun g => g.game_id == gid).filterMap f
      = (db.games.filter fun g => g.game_id == gid).filterMap f := by
  show ((db.games.filter fun g => g.game_type == "regular").filter
    fun g => g.game_id == gid).filterMap f = _
  rw [filterComm]
  exact filterMapRestrict hf _

/-- Removing non-regular games leaves the leaderboard join unchanged: its
WHERE clause already demands `g.game_type = 'regular'`. -/
theorem lbJoinedRestrict (db : DB) (rows : List OffRow) :
    lbJoined (restrictRegular db) rows = lbJoined db rows := by
  unfold lbJoined
  refine flatMapCongr fun t ht => ?_
  refine flatMapCongr fun p hp => ?_
  exact gamesRestrictFilterMap db t.game_id _ fun g hg => by simp [hg]

theorem lbCareerGroupsRestrict (db : DB) (rows : List OffRow) :
    lbCareerGroups (restrictRegular db) rows = lbCareerGroups db rows := by
  unfold lbCareerGroups
  rw [lbJoinedRestrict]

theorem defRowsScopeRestrict (db : DB) (season : Option Int) :
    defRowsScope (restrictRegular db) season = defRowsScope db season := by
  unfold defRowsScope
  refine flatMapCongr fun t ht => ?_
  exact gamesRestrictFilterMap db t.game_id _ fun g hg => by simp [hg]

theorem sackRowsScopeRestrict (db : DB) (season : Option Int) :
    sackRowsScope (restrictRegular db) season = sackRowsScope db season := by
  unfold sackRowsScope
  refine flatMapCongr fun t ht => ?_
  exact gamesRestrictFilterMap db t.game_id _ fun g hg => by simp [hg]

theorem intRowsScopeRestrict (db : DB) (season : Option Int) :
    intRowsScope (restrictRegular db) season = intRowsScope db season := by
  unfold intRowsScope
  refine flatMapCongr fun t ht => ?_
  exact gamesRestrictFilterMap db t.game_id _ fun g hg => by simp [hg]

theorem defAggRestrict (db : DB) (season : Option Int) (pid : String) :
    defAgg (restrictRegular db) season pid = defAgg db season pid := by
  unfold defAgg
  rw [defRowsScopeRestrict]

theorem skAggRestrict (db : DB) (season : Option Int) (pid : String) :
    skAgg (restrictRegular db) season pid = skAgg db season pid := by
  unfold skAgg
  rw [sackRowsScopeRestrict]

theorem itAggRestrict (db : DB) (season : Option Int) (pid : String) :
    itAgg (restrictRegular db) season pid = itAgg db season pid := by
  unfold itAgg
  rw [intRowsScopeRestrict]

theorem qpsDefenseCareerRestrict (db : DB) (name : String) (season : Option Int) :
    qps_defense_career (restrictRegular db) name season
      = qps_defense_career db name season := by
  have hcond : qpsDefOuterCond (restrictRegular db) name season
      = qpsDefOuterCond db name season :=
    funext fun q => by
      unfold qpsDefOuterCond
      rw [defAggRestrict, skAggRestrict, itAggRestrict]
  have hrow : defCareerRow (restrictRegular db) season = defCareerRow db season :=
    funext fun q => by
      unfold defCareerRow
      rw [defAggRestrict, skAggRestrict, itAggRestrict]
  unfold qps_defense_career
  rw [hcond, hrow]
  rfl

theorem lbDefJoinedRowsRestrict (db : DB) :
    lbDefJoinedRows (restrictRegular db) = lbDefJoinedRows db := by
  unfold lbDefJoinedRows
  refine flatMapCongr fun t ht => ?_
  exact gamesRestrictFilterMap db t.game_id _ fun g hg => by simp [hg]

theorem lbSkJoinedRowsRestrict (db : DB) :
    lbSkJoinedRows (restrictRegular db) = lbSkJoinedRows db := by
  unfold lbSkJoinedRows
  refine flatMapCongr fun t ht => ?_
  exact gamesRestrictFilterMap db t.game_id _ fun g hg => by simp [hg]

theorem lbItJoinedRowsRestrict (db : DB) :
    lbItJoinedRows (restrictRegular db) = lbItJoinedRows db := by
  unfold lbItJoinedRows
  refine flatMapCongr fun t ht => ?_
  exact gamesRestrictFilterMap db t.game_id _ fun g hg => by simp [hg]

theorem lbDefCareerRowsRestrict (db : DB) :
    lbDefCareerRows (restrictRegular db) = lbDefCareerRows db := by
  have hrow : mkLBDefRow (restrictRegular db) = mkLBDefRow db :=
    funext fun p => by
      unfold mkLBDefRow lbDefAgg lbSkAgg lbItAgg
      rw [lbDefJoinedRowsRestrict, lbSkJoinedRowsRestrict, lbItJoinedRowsRestrict]
  unfold lbDefCareerRows
  rw [hrow]
  rfl

theorem lbDefenseCareerRestrict (db : DB) ( sort_by : String) (limit : Nat) :
    query_leaderboards_career_defense (restrictRegular db) sort_by limit
      = query_leaderboards_career_defense db sort_by limit := by
  unfold query_leaderboards_career_defense
  rw [lbDefCareerRowsRestrict]

/-- C2 amended: `query_leaderboards` with scope career (offense groups and
the defense branch) and the defense career path of `query_player_stats` are
unchanged when all non-regular games are removed — those paths sum only
rows joined to `game_type = 'regular'` games. The offensive
`career_totals = true` path of `query_player_stats` carries no such filter
(see the counterexample). -/
theorem c2_regular_scope_amended (db : DB) (name sb : String)
    (season : Option Int) (limit : Nat) :
    query_leaderboards_career_passing (restrictRegular db) sb limit
      = query_leaderboards_career_passing db sb limit
    ∧ lbCareerGroups (restrictRegular db) db.player_rushing
      = lbCareerGroups db db.player_rushing
    ∧ lbCareerGroups (restrictRegular db) db.player_receiving
      = lbCareerGroups db db.player_receiving
    ∧ query_leaderboards_career_defense (restrictRegular db) sb limit
      = query_leaderboards_career_defense db sb limit
    ∧ qps_defense_career (restrictRegular db) name season
      = qps_defense_career db name season := by
  refine ⟨?_, lbCareerGroupsRestrict db _, lbCareerGroupsRestrict db _,
    lbDefenseCareerRestrict db sb limit, qpsDefenseCareerRestrict db name season⟩
  unfold query_leaderboards_career_passing
  rw [lbCareerGroupsRestrict]
  rfl

/-- C1 counterexample: the schema of `query_records` admits any string as
`stat_column` (`z.string()`), and the construction concatenates it into the
SQL text instead of binding it: with a malicious column string the built SQL
contains the injected text verbatim while the bound arguments hold only the
numeric threshold. -/
theorem c1_records_interpolation_cex :
    strContainsSub
      (query_records_sql OffStat.passing "yds) ; DROP TABLE players; --" 300
        RecScope.season).sql "DROP TABLE" = true
    ∧ (query_records_sql OffStat.passing "yds) ; DROP TABLE players; --" 300
        RecScope.season).args = [Arg.int 300] :=
  ⟨by decide, by decide⟩

set_option maxRecDepth 4000 in
/-- C1 amended: identifiers are interpolated only from the closed enums
(the `player_X` table names, the per-type column lists), and the
user-supplied values of the other tools are bound positional parameters
whose content never reaches the SQL text: the `limit`/`min_value` numbers,
the opponent filter of `query_games` and of the `query_scoring` resolution
query, the player name of every `query_player_stats` path, of
`search_players` and of `query_player_bio`, and the game id of the
scoring-plays fetch — but the free-text `sort_by` of `query_leaderboards`
(except the defense single-game branch, which ignores it) and `stat_column`
of `query_records` are concatenated into the SQL text rather than bound. -/
theorem c1_sql_parameterization_amended :
    (∀ (st : StatType) (sc : Scope) (sb : String) (l : Int),
      (query_leaderboards_sql st sc sb l).args = [Arg.int l])
    ∧ (∀ (st : StatType) (sc : Scope) (sb : String) (l : Int),
      ¬(st = StatType.defense ∧ sc = Scope.game) →
      ∃ x y, (query_leaderboards_sql st sc sb l).sql = x ++ sb ++ y)
    ∧ (∀ (s1 s2 : String) (l : Int),
      query_leaderboards_sql StatType.defense Scope.game s1 l
        = query_leaderboards_sql StatType.defense Scope.game s2 l)
    ∧ (∀ (st : OffStat) (stc : String) (mv : Int) (sc : RecScope),
      (query_records_sql st stc mv sc).args = [Arg.int mv])
    ∧ (∀ (st : OffStat) (stc : String) (mv : Int) (sc : RecScope),
      ∃ x y, (query_records_sql st stc mv sc).sql = x ++ stc ++ y)
    ∧ (∀ (o : String) (l : Int), o ≠ "" →
      (query_games_sql none (some o) none none l).args
        = [Arg.str ("%" ++ o ++ "%"), Arg.int l]
      ∧ ∀ o2 : String, o2 ≠ "" →
        (query_games_sql none (some o) none none l).sql
          = (query_games_sql none (some o2) none none l).sql)
    ∧ (∀ (st : StatType) (n : String) (season : Option Int) (ct : Bool),
      (query_player_stats_sql st n season ct).args
        = [Arg.str ("%" ++ n ++ "%")] ++
          (if numTruthy season then [Arg.int (season.getD 0)] else [])
      ∧ ∀ n2 : String, (query_player_stats_sql st n season ct).sql
          = (query_player_stats_sql st n2 season ct).sql)
    ∧ (∀ (n : String) (l : Int),
      (search_players_sql n l).args = [Arg.str ("%" ++ n ++ "%"), Arg.int l]
      ∧ ∀ n2 : String, (search_players_sql n l).sql = (search_players_sql n2 l).sql)
    ∧ (∀ n : String,
      (query_player_bio_sql n).args = [Arg.str ("%" ++ n ++ "%")]
      ∧ ∀ n2 : String, (query_player_bio_sql n).sql = (query_player_bio_sql n2).sql)
    ∧ (∀ g : String,
      (query_scoring_plays_sql g).args = [Arg.str g]
      ∧ ∀ g2 : String, (query_scoring_plays_sql g).sql = (query_scoring_plays_sql g2).sql)
    ∧ (∀ o : String, o ≠ "" →
      (query_scoring_resolve_sql none (some o)).args = [Arg.str ("%" ++ o ++ "%")]
      ∧ ∀ o2 : String, o2 ≠ "" →
        (query_scoring_resolve_sql none (some o)).sql
          = (query_scoring_resolve_sql none (some o2)).sql) := by
  refine ⟨?_, ?_, ?_, ?_, ?_, ?_, ?_,
    fun n l => ⟨rfl, fun n2 => rfl⟩, fun n => ⟨rfl, fun n2 => rfl⟩,
    fun g => ⟨rfl, fun g2 => rfl⟩, ?_⟩
  · intro st sc sb l
    cases st <;> cases sc <;> rfl
  · intro st sc sb l h
    cases st <;> cases sc <;> first
      | exact ⟨_, _, rfl⟩
      | exact absurd ⟨rfl, rfl⟩ h
  · intro s1 s2 l
    rfl
  · intro st stc mv sc
    cases st <;> cases sc <;> rfl
  · intro st stc mv sc
    cases st <;> cases sc <;> exact ⟨_, _, rfl⟩
  · intro o l ho
    have hb : (o != "") = true := bne_iff_ne.mpr ho
    constructor
    · simp [query_games_sql, strTruthy, numTruthy, hb]
    · intro o2 ho2
      have hb2 : (o2 != "") = true := bne_iff_ne.mpr ho2
      simp [query_games_sql, strTruthy, numTruthy, hb, hb2]
  · intro st n season ct
    constructor
    · cases st <;> cases ct <;> rfl
    · intro n2
      cases st <;> cases ct <;> rfl
  · intro o ho
    have hb : (o != "") = true := bne_iff_ne.mpr ho
    constructor
    · simp [query_scoring_resolve_sql, strTruthy, numTruthy, hb]
    · intro o2 ho2
      have hb2 : (o2 != "") = true := bne_iff_ne.mpr ho2
      simp [query_scoring_resolve_sql, strTruthy, numTruthy, hb, hb2]

/-- Witness for C1 amended at concrete inputs. -/
theorem c1_sql_parameterization_amended_witness :
    (∃ x y, (query_leaderboards_sql StatType.passing Scope.career "yds" 10).sql
        = x ++ "yds" ++ y)
    ∧ (query_games_sql none (some "Falcons") none none 20).args
        = [Arg.str ("%" ++ "Falcons" ++ "%"), Arg.int 20]
    ∧ (query_scoring_resolve_sql none (some "Vikings")).args
        = [Arg.str ("%" ++ "Vikings" ++ "%")] :=
  ⟨c1_sql_parameterization_amended.2.1 StatType.passing Scope.career "yds" 10
      (by decide),
    (c1_sql_parameterization_amended.2.2.2.2.2.1 "Falcons" 20 (by decide)).1,
    (c1_sql_parameterization_amended.2.2.2.2.2.2.2.2.2.2 "Vikings" (by decide)).1⟩

end SaintsEnc
